import Mathlib

/-!
Verification of the gstreamer-soltrek tutorial programs.

The repository holds three C tutorial programs built on the GStreamer
framework: bt2-gstreamer-concepts.c (static pipeline, blocking bus wait),
bt3-dynamic-pipelines.c (dynamic pad linking via a pad-added callback) and
bt4-seeking.c (polling event loop with position queries and a one-shot seek).

This file gives a shallow embedding of the coordination logic those programs
author themselves: the construction sequences, the bus event loops, the
message dispatch, the pad-added handler and the position/seek monitor.  The
external framework calls are modelled by their results (booleans for
success/failure, optional values for queries) supplied as environment inputs,
and by explicit action-trace entries recording each observable call the
program makes (prints, seeks, unrefs, links).  Machine integers (gint64
nanosecond timestamps) are modelled as Int; the values involved are tiny
compared to 2^63, so no overflow arises in the embedded arithmetic.
-/

namespace GstSoltrek

/-- GStreamer element lifecycle states (GstState). -/
inductive GstState where
  | VOID_PENDING
  | NULL
  | READY
  | PAUSED
  | PLAYING
  deriving DecidableEq

/-- Query/seek format selector (GstFormat); the tutorials use GST_FORMAT_TIME. -/
inductive GstFormat where
  | TIME
  | BYTES
  deriving DecidableEq

/-- Seek behaviour flags (GstSeekFlags) used by bt4. -/
inductive GstSeekFlag where
  | FLUSH
  | KEY_UNIT
  | ACCURATE
  deriving DecidableEq

/-- One observable call made by a tutorial program: prints to stdout/stderr,
framework calls that change or release state, and the values they carry.
Formatted prints are recorded with their semantic arguments rather than the
final formatted text. -/
inductive GstAction where
  | printOut (s : String)
  | printErr (s : String)
  | printErrorReceived (srcName errMsg : String)
  | printDebugInfo (debugInfo : Option String)
  | printStateChange (oldS newS : GstState)
  | printPosition (pos dur : Int)
  | printSeekingRange (startR endR : Int)
  | printPadReceived (padName srcName : String)
  | printPadType (padType : Option String)
  | printLinkResult (ok : Bool) (padType : Option String)
  | getStaticSinkPad
  | getCurrentCaps (present : Bool)
  | capsGetStructure (capsPresent : Bool)
  | structureGetName (structPresent : Bool)
  | padLink (ok : Bool)
  | capsUnref
  | sinkPadUnref
  | querySeekingNew
  | elementQuery (ok : Bool)
  | queryUnref
  | seekSimple (format : GstFormat) (flags : List GstSeekFlag) (target : Int)
  | messageUnref
  | setState (s : GstState)
  | objectUnref (name : String)
  | busUnref
  deriving DecidableEq

/-- A bus message as the tutorials dispatch on it: the tagged union over the
message kinds the programs inspect.  `srcIsTopLevel` records whether
GST_MESSAGE_SRC equals the top-level pipeline/playbin object, the only
property of the source object the state-changed branches test. -/
inductive GstMessage where
  | error (srcName errMsg : String) (debugInfo : Option String)
  | eos
  | stateChanged (srcIsTopLevel : Bool) (oldS newS pendingS : GstState)
  | durationChanged
  | unexpected
  deriving DecidableEq

/-- GST_SECOND: one second in nanoseconds. -/
def GST_SECOND : Int := 1000000000

/-- GST_MSECOND: one millisecond in nanoseconds. -/
def GST_MSECOND : Int := 1000000

/-- GST_CLOCK_TIME_NONE stored in a gint64 variable: the all-ones bit pattern,
i.e. -1 as a signed 64-bit value (bt4 initialises data.duration to it). -/
def GST_CLOCK_TIME_NONE : Int := -1

/-- GST_CLOCK_TIME_IS_VALID on a gint64-held value: the cast to guint64
differs from GST_CLOCK_TIME_NONE exactly when the signed value is not -1. -/
def GST_CLOCK_TIME_IS_VALID (t : Int) : Bool := t != GST_CLOCK_TIME_NONE

/-! ## bt4-seeking.c: shared session state and message handling -/

/-- The CustomData struct of bt4-seeking.c (lines 27-34). -/
structure CustomData where
  playing : Bool
  terminate : Bool
  seek_enabled : Bool
  seek_done : Bool
  duration : Int
  deriving DecidableEq

/-- The initial field values set by bt4 main (lines 45-49). -/
def bt4Init : CustomData :=
  { playing := false, terminate := false, seek_enabled := false,
    seek_done := false, duration := GST_CLOCK_TIME_NONE }

/-- Result of the seeking capability query issued on entering PLAYING:
`none` when gst_element_query fails, otherwise the (seek_enabled, start, end)
triple gst_query_parse_seeking extracts. -/
def SeekQueryResult := Option (Bool × Int × Int)

/-- The switch statement of handle_message in bt4-seeking.c (lines 159-235),
without the trailing gst_message_unref.  `sq` supplies the outcome of the
seeking capability query performed in the state-changed/PLAYING branch. -/
def handle_message_core (sq : Option (Bool × Int × Int)) (data : CustomData)
    (msg : GstMessage) : CustomData × List GstAction :=
  match msg with
  | GstMessage.error srcName errMsg debugInfo =>
      ({ data with terminate := true },
       [GstAction.printErrorReceived srcName errMsg,
        GstAction.printDebugInfo debugInfo])
  | GstMessage.eos =>
      ({ data with terminate := true },
       [GstAction.printOut ("\nEnd-Of-Stream reached.\n")])
  | GstMessage.durationChanged =>
      ({ data with duration := GST_CLOCK_TIME_NONE }, [])
  | GstMessage.stateChanged srcIsTopLevel oldS newS _pendingS =>
      if srcIsTopLevel then
        let data1 := { data with playing := decide (newS = GstState.PLAYING) }
        if data1.playing then
          match sq with
          | some (enabled, startR, endR) =>
              ({ data1 with seek_enabled := enabled },
               [GstAction.printStateChange oldS newS,
                GstAction.querySeekingNew, GstAction.elementQuery true] ++
               (if enabled then [GstAction.printSeekingRange startR endR]
                else [GstAction.printOut ("Seeking is DISABLED for this stream.\n")]) ++
               [GstAction.queryUnref])
          | none =>
              (data1,
               [GstAction.printStateChange oldS newS,
                GstAction.querySeekingNew, GstAction.elementQuery false,
                GstAction.printErr ("Seeking query failed."),
                GstAction.queryUnref])
        else
          (data1, [GstAction.printStateChange oldS newS])
      else
        (data, [])
  | GstMessage.unexpected =>
      (data, [GstAction.printErr ("Unexpected message received.\n")])

/-- handle_message of bt4-seeking.c (lines 155-237): the dispatch switch
followed by the unconditional gst_message_unref at line 236. -/
def handle_message (sq : Option (Bool × Int × Int)) (data : CustomData)
    (msg : GstMessage) : CustomData × List GstAction :=
  let r := handle_message_core sq data msg
  (r.1, r.2 ++ [GstAction.messageUnref])

/-! ## bt4-seeking.c: the polling tick (timeout branch of the event loop) -/

/-- Environment of one polling tick: the results of the position and duration
queries.  `none` models a query call that returns FALSE (and therefore does
not write through its out-parameter); `some v` models success writing `v`. -/
structure TickEnv where
  posResult : Option Int
  durResult : Option Int
  deriving DecidableEq

/-- The timeout branch of the bt4 event loop (lines 90-144): position query
into a local `current` initialised to -1, one-time duration query while the
cached duration is invalid, the position/duration print, and the guarded
one-shot seek to 30 seconds with FLUSH and KEY_UNIT flags. -/
def tick (env : TickEnv) (data : CustomData) : CustomData × List GstAction :=
  if data.playing then
    let current0 : Int := -1
    let pr : Int × List GstAction :=
      match env.posResult with
      | some v => (v, [])
      | none => (current0, [GstAction.printErr ("Could not query current position.\n")])
    let current := pr.1
    let dr : CustomData × List GstAction :=
      if GST_CLOCK_TIME_IS_VALID data.duration then (data, [])
      else
        match env.durResult with
        | some dv => ({ data with duration := dv }, [])
        | none => (data, [GstAction.printErr ("Could not query current duration.\n")])
    let data1 := dr.1
    let showActs := [GstAction.printPosition current data1.duration]
    if data1.seek_enabled = true ∧ data1.seek_done = false ∧ current > 10 * GST_SECOND then
      ({ data1 with seek_done := true },
       pr.2 ++ dr.2 ++ showActs ++
       [GstAction.printOut ("\nReached 10s, performing seek...\n"),
        GstAction.seekSimple GstFormat.TIME
          [GstSeekFlag.FLUSH, GstSeekFlag.KEY_UNIT] (30 * GST_SECOND)])
    else
      (data1, pr.2 ++ dr.2 ++ showActs)
  else
    (data, [])

/-! ## bt4-seeking.c: the event loop -/

/-- One iteration input of the bt4 do-while loop: either
gst_bus_timed_pop_filtered returned a message (with the environment for the
seeking query should the state-changed/PLAYING branch run), or it timed out
(returned NULL) and the tick runs with the given query results. -/
inductive LoopEvent where
  | message (msg : GstMessage) (sq : Option (Bool × Int × Int))
  | timeout (env : TickEnv)
  deriving DecidableEq

/-- One iteration of the bt4 loop body (lines 75-145). -/
def bt4Step (data : CustomData) (e : LoopEvent) : CustomData × List GstAction :=
  match e with
  | LoopEvent.message msg sq => handle_message sq data msg
  | LoopEvent.timeout env => tick env data

/-- The bt4 do-while loop over a finite schedule of iteration inputs; it stops
early as soon as data.terminate is set (the while condition at line 145), and
otherwise runs the whole schedule. -/
def bt4Run (data : CustomData) : List LoopEvent → CustomData × List GstAction
  | [] => (data, [])
  | e :: es =>
      let r1 := bt4Step data e
      if r1.1.terminate then r1
      else
        let r2 := bt4Run r1.1 es
        (r2.1, r1.2 ++ r2.2)

/-- Recognises the gst_element_seek_simple action in a trace. -/
def isSeek : GstAction → Bool
  | GstAction.seekSimple _ _ _ => true
  | _ => false

/-- Number of gst_element_seek_simple calls recorded in a trace. -/
def seekCount (as : List GstAction) : Nat := (as.filter isSeek).length

/-! ## bt3-dynamic-pipelines.c: the pad-added handler -/

/-- The piece of pad/link state pad_added_handler reads and writes: whether
the sink pad of the audioconvert element is currently linked
(gst_pad_is_linked at line 222; gst_pad_link at line 255 links it). -/
structure PadWorld where
  convSinkLinked : Bool
  deriving DecidableEq

/-- Per-invocation inputs of pad_added_handler: the names printed at line 214,
the current capabilities of the new pad — `none` when
gst_pad_get_current_caps returns NULL, otherwise the name of the first (and
only inspected) structure of the caps — and the success of the
gst_pad_link call should it be reached. -/
structure PadEnv where
  padName : String
  srcName : String
  newPadCaps : Option String
  linkOk : Bool
  deriving DecidableEq

/-- The cleanup block at the exit label of pad_added_handler (lines 267-273):
unref the caps only when they were obtained, then unref the sink pad. -/
def exitActs (capsPresent : Bool) : List GstAction :=
  (if capsPresent then [GstAction.capsUnref] else []) ++ [GstAction.sinkPadUnref]

/-- g_str_has_prefix applied to the structure name: GLib precondition checks
make a NULL string compare as not having the prefix (g_return_val_if_fail
returns FALSE). -/
def audioRawMatch : Option String → Bool
  | some t => (String.isPrefixOf ("audio/x-raw") t)
  | none => false

/-- pad_added_handler of bt3-dynamic-pipelines.c (lines 186-274).  The GLib
calls on a NULL caps pointer (gst_caps_get_structure, gst_structure_get_name)
are modelled by their documented precondition-check behaviour: they are still
invoked — the trace records each call and whether its argument was present —
and return NULL, which the prefix test then rejects. -/
def pad_added_handler (w : PadWorld) (env : PadEnv) : PadWorld × List GstAction :=
  let acts0 := [GstAction.getStaticSinkPad,
                GstAction.printPadReceived env.padName env.srcName]
  if w.convSinkLinked then
    (w, acts0 ++ [GstAction.printOut ("We are already linked. Ignoring.\n")] ++
        exitActs false)
  else
    let new_pad_caps := env.newPadCaps
    let capsActs := [GstAction.getCurrentCaps new_pad_caps.isSome,
                     GstAction.capsGetStructure new_pad_caps.isSome,
                     GstAction.structureGetName new_pad_caps.isSome]
    let new_pad_type : Option String := new_pad_caps
    if !audioRawMatch new_pad_type then
      (w, acts0 ++ capsActs ++ [GstAction.printPadType new_pad_type] ++
          exitActs new_pad_caps.isSome)
    else
      let ret := env.linkOk
      ({ convSinkLinked := ret },
       acts0 ++ capsActs ++
       [GstAction.padLink ret, GstAction.printLinkResult ret new_pad_type] ++
       exitActs new_pad_caps.isSome)

/-- Repeated deliveries of the pad-added signal: the handler applied to each
environment in turn, threading the pad/link state and concatenating traces. -/
def runHandlers (w : PadWorld) : List PadEnv → PadWorld × List GstAction
  | [] => (w, [])
  | e :: es =>
      let r1 := pad_added_handler w e
      let r2 := runHandlers r1.1 es
      (r2.1, r1.2 ++ r2.2)

/-- Recognises a gst_pad_link call in a trace. -/
def isPadLink : GstAction → Bool
  | GstAction.padLink _ => true
  | _ => false

/-- Recognises a gst_message_unref call in a trace. -/
def isMessageUnref : GstAction → Bool
  | GstAction.messageUnref => true
  | _ => false

/-- Number of gst_message_unref calls recorded in a trace. -/
def unrefCount (as : List GstAction) : Nat := (as.filter isMessageUnref).length

/-! ## bt2-gstreamer-concepts.c and bt3-dynamic-pipelines.c: message handling -/

/-- The switch of the bt2 main loop (lines 108-129), without the trailing
gst_message_unref at line 130.  bt2 requests only ERROR and EOS; every other
kind lands in the default branch. -/
def bt2ParseMsg : GstMessage → List GstAction
  | GstMessage.error srcName errMsg debugInfo =>
      [GstAction.printErrorReceived srcName errMsg,
       GstAction.printDebugInfo debugInfo]
  | GstMessage.eos => [GstAction.printOut ("End-Of-Stream reached.\n")]
  | _ => [GstAction.printErr ("Unexpected message received.\n")]

/-- Handling of one non-NULL message in bt2 (lines 104-131): the switch
followed by the unconditional gst_message_unref. -/
def bt2HandleMsg (msg : GstMessage) : List GstAction :=
  bt2ParseMsg msg ++ [GstAction.messageUnref]

/-- The switch of the bt3 main loop (lines 147-173), without the trailing
gst_message_unref: returns the new value of the terminate flag and the
actions.  bt3 has no DURATION case, so a duration-changed message would land
in the default branch. -/
def bt3ParseMsg (terminate : Bool) : GstMessage → Bool × List GstAction
  | GstMessage.error srcName errMsg debugInfo =>
      (true, [GstAction.printErrorReceived srcName errMsg,
              GstAction.printDebugInfo debugInfo])
  | GstMessage.eos => (true, [GstAction.printOut ("End-Of-Stream reached.\n")])
  | GstMessage.stateChanged srcIsTopLevel oldS newS _pendingS =>
      (terminate,
       if srcIsTopLevel then [GstAction.printStateChange oldS newS] else [])
  | _ => (terminate, [GstAction.printErr ("Unexpected message received.\n")])

/-- Handling of one non-NULL message in bt3 (lines 143-175): the switch
followed by the unconditional gst_message_unref at line 174. -/
def bt3HandleMsg (terminate : Bool) (msg : GstMessage) : Bool × List GstAction :=
  let r := bt3ParseMsg terminate msg
  (r.1, r.2 ++ [GstAction.messageUnref])

/-- The bt3 do-while loop (lines 138-176) over a finite schedule of bus pop
results (`none` models a NULL return, skipped by the msg != NULL test); it
stops as soon as terminate is set. -/
def bt3Run (terminate : Bool) : List (Option GstMessage) → Bool × List GstAction
  | [] => (terminate, [])
  | e :: es =>
      let r1 : Bool × List GstAction :=
        match e with
        | none => (terminate, [])
        | some m => bt3HandleMsg terminate m
      if r1.1 then r1
      else
        let r2 := bt3Run r1.1 es
        (r2.1, r1.2 ++ r2.2)

/-! ## Construction phases and handle accounting

Each construction model records which framework object handles were acquired
(non-NULL creation results, by name) and which were released before the
function returned or fell through to the event loop.  Unreffing a pipeline
releases the elements it contains, so after gst_bin_add_many a pipeline unref
accounts for every added element as released. -/

/-- Outcome of a construction phase: aborted with an exit code, or fell
through to the event loop. -/
structure ConstructResult where
  outcome : Option Int
  created : List String
  released : List String
  actions : List GstAction
  deriving DecidableEq

/-- Handles acquired but never released by the time the construction phase
returned or handed over to the loop. -/
def leaked (r : ConstructResult) : List String :=
  r.created.filter (fun h => !(r.released.contains h))

/-- The construction phase of bt2-gstreamer-concepts.c main (lines 33-95):
create source, sink and pipeline; abort -1 if any handle is NULL (no
releases); add both elements; abort -1 after unreffing the pipeline if the
static link fails; set the pattern property; abort -1 after unreffing the
pipeline if the transition to PLAYING fails. -/
def bt2_construct (sourceOk sinkOk pipelineOk linkOk stateOk : Bool) :
    ConstructResult :=
  let created := (if sourceOk then ["source"] else []) ++
                 (if sinkOk then ["sink"] else []) ++
                 (if pipelineOk then ["test-pipeline"] else [])
  if !(pipelineOk && sourceOk && sinkOk) then
    { outcome := some (-1), created := created, released := [],
      actions := [GstAction.printErr ("Not all elements could be created.\n")] }
  else if !linkOk then
    { outcome := some (-1), created := created,
      released := ["test-pipeline", "source", "sink"],
      actions := [GstAction.printErr ("Elements could not be linked.\n"),
                  GstAction.objectUnref ("test-pipeline")] }
  else if !stateOk then
    { outcome := some (-1), created := created,
      released := ["test-pipeline", "source", "sink"],
      actions := [GstAction.setState GstState.PLAYING,
                  GstAction.printErr ("Unable to set the pipeline to the playing state.\n"),
                  GstAction.objectUnref ("test-pipeline")] }
  else
    { outcome := none, created := created, released := [],
      actions := [GstAction.setState GstState.PLAYING] }

/-- The construction phase of bt3-dynamic-pipelines.c main (lines 66-134):
create source, convert, resample, sink and pipeline; abort -1 if any handle
is NULL (no releases); add all five; abort -1 after unreffing the pipeline if
the static convert-resample-sink link fails; connect the pad-added signal;
abort -1 after unreffing the pipeline if the transition to PLAYING fails. -/
def bt3_construct (sourceOk convertOk resampleOk sinkOk pipelineOk
    linkOk stateOk : Bool) : ConstructResult :=
  let created := (if sourceOk then ["source"] else []) ++
                 (if convertOk then ["convert"] else []) ++
                 (if resampleOk then ["resample"] else []) ++
                 (if sinkOk then ["sink"] else []) ++
                 (if pipelineOk then ["test-pipeline"] else [])
  if !(pipelineOk && sourceOk && convertOk && resampleOk && sinkOk) then
    { outcome := some (-1), created := created, released := [],
      actions := [GstAction.printErr ("Not all elements could be created.\n")] }
  else if !linkOk then
    { outcome := some (-1), created := created,
      released := ["test-pipeline", "source", "convert", "resample", "sink"],
      actions := [GstAction.printErr ("Elements could not be linked.\n"),
                  GstAction.objectUnref ("test-pipeline")] }
  else if !stateOk then
    { outcome := some (-1), created := created,
      released := ["test-pipeline", "source", "convert", "resample", "sink"],
      actions := [GstAction.setState GstState.PLAYING,
                  GstAction.printErr ("Unable to set the pipeline to the playing state.\n"),
                  GstAction.objectUnref ("test-pipeline")] }
  else
    { outcome := none, created := created, released := [],
      actions := [GstAction.setState GstState.PLAYING] }

/-- The construction phase of bt4-seeking.c main (lines 55-71): create the
playbin; abort -1 if its handle is NULL (nothing was created, nothing to
release); abort -1 after unreffing the playbin if the transition to PLAYING
fails. -/
def bt4_construct (playbinOk stateOk : Bool) : ConstructResult :=
  let created := if playbinOk then ["playbin"] else []
  if !playbinOk then
    { outcome := some (-1), created := created, released := [],
      actions := [GstAction.printErr ("Not all elements could be created.\n")] }
  else if !stateOk then
    { outcome := some (-1), created := created, released := ["playbin"],
      actions := [GstAction.setState GstState.PLAYING,
                  GstAction.printErr ("Unable to set the pipeline to the playing state.\n"),
                  GstAction.objectUnref ("playbin")] }
  else
    { outcome := none, created := created, released := [],
      actions := [GstAction.setState GstState.PLAYING] }

/-! ## The three mains: exit codes -/

/-- bt2 main (lines 13-138): construction, one blocking filtered bus pop
(`none` models a NULL return), message handling, then cleanup and return 0. -/
def bt2_main (sourceOk sinkOk pipelineOk linkOk stateOk : Bool)
    (msg : Option GstMessage) : Option Int :=
  let c := bt2_construct sourceOk sinkOk pipelineOk linkOk stateOk
  match c.outcome with
  | some code => some code
  | none =>
      let _acts := match msg with
                   | some m => bt2HandleMsg m
                   | none => []
      some 0

/-- bt3 main (lines 55-183): construction, the do-while bus loop, then
cleanup and return 0.  When the schedule ends without the terminate flag
having been set, the real loop would still be blocked on the bus: the exit
code is `none` (the program has not returned). -/
def bt3_main (sourceOk convertOk resampleOk sinkOk pipelineOk
    linkOk stateOk : Bool) (msgs : List (Option GstMessage)) : Option Int :=
  let c := bt3_construct sourceOk convertOk resampleOk sinkOk pipelineOk
             linkOk stateOk
  match c.outcome with
  | some code => some code
  | none =>
      let r := bt3Run false msgs
      if r.1 then some 0 else none

/-- bt4 main (lines 39-152): construction, the polling do-while loop, then
cleanup and return 0.  When the schedule ends without the terminate flag
having been set, the real loop would poll on: the exit code is `none`. -/
def bt4_main (playbinOk stateOk : Bool) (es : List LoopEvent) : Option Int :=
  let c := bt4_construct playbinOk stateOk
  match c.outcome with
  | some code => some code
  | none =>
      let r := bt4Run bt4Init es
      if r.1.terminate then some 0 else none

/-- The exact seek request bt4 issues (lines 118-119): GST_FORMAT_TIME,
GST_SEEK_FLAG_FLUSH | GST_SEEK_FLAG_KEY_UNIT, target 30 seconds. -/
def theSeek : GstAction :=
  GstAction.seekSimple GstFormat.TIME
    [GstSeekFlag.FLUSH, GstSeekFlag.KEY_UNIT] (30 * GST_SECOND)

/-- Whether a loop iteration input carries a capability query result that
reports seeking as enabled. -/
def eventReportsEnabled : LoopEvent → Bool
  | LoopEvent.message _ (some (true, _, _)) => true
  | _ => false

/-! ## Helper lemmas -/

theorem seekCount_append (a b : List GstAction) :
    seekCount (a ++ b) = seekCount a + seekCount b := by
  simp [seekCount, List.filter_append]

theorem unrefCount_append (a b : List GstAction) :
    unrefCount (a ++ b) = unrefCount a + unrefCount b := by
  simp [unrefCount, List.filter_append]

theorem hmCore_no_seek (sq : Option (Bool × Int × Int)) (d : CustomData)
    (m : GstMessage) : seekCount (handle_message_core sq d m).2 = 0 := by
  rcases m with ⟨sN, eM, dI⟩ | _ | ⟨top, o, n, p⟩ | _ | _ <;>
    simp [handle_message_core, seekCount, isSeek]
  cases top
  · simp
  · by_cases hn : n = GstState.PLAYING <;>
      rcases sq with _ | ⟨en, st, ed⟩ <;>
        simp [hn, isSeek] <;> cases en <;> simp [isSeek]

theorem hm_no_seek (sq : Option (Bool × Int × Int)) (d : CustomData)
    (m : GstMessage) : seekCount (handle_message sq d m).2 = 0 := by
  have h : (handle_message sq d m).2 =
      (handle_message_core sq d m).2 ++ [GstAction.messageUnref] := rfl
  rw [h, seekCount_append, hmCore_no_seek]
  rfl

theorem hmCore_seek_done (sq : Option (Bool × Int × Int)) (d : CustomData)
    (m : GstMessage) :
    (handle_message_core sq d m).1.seek_done = d.seek_done := by
  rcases m with ⟨sN, eM, dI⟩ | _ | ⟨top, o, n, p⟩ | _ | _ <;>
    simp [handle_message_core]
  cases top <;> by_cases hn : n = GstState.PLAYING <;>
    rcases sq with _ | ⟨en, st, ed⟩ <;> simp [hn]

theorem hm_seek_done (sq : Option (Bool × Int × Int)) (d : CustomData)
    (m : GstMessage) :
    (handle_message sq d m).1.seek_done = d.seek_done := by
  simp [handle_message, hmCore_seek_done]

theorem tick_seek_bound (env : TickEnv) (d : CustomData) :
    seekCount (tick env d).2 +
      (if (tick env d).1.seek_done = true then 0 else 1) ≤
      (if d.seek_done = true then 0 else 1) := by
  by_cases hp : d.playing = true
  · by_cases hv : GST_CLOCK_TIME_IS_VALID d.duration = true <;>
      rcases env with ⟨_ | pv, _ | dv⟩ <;>
        simp [tick, hp, hv, seekCount, isSeek] <;> split <;>
          rename_i hc <;>
            simp_all [seekCount, isSeek]
  · simp [tick, hp, seekCount]

theorem bt4Step_seek_bound (d : CustomData) (e : LoopEvent) :
    seekCount (bt4Step d e).2 +
      (if (bt4Step d e).1.seek_done = true then 0 else 1) ≤
      (if d.seek_done = true then 0 else 1) := by
  cases e with
  | message msg sq =>
      simp [bt4Step, hm_no_seek, hm_seek_done]
  | timeout env => exact tick_seek_bound env d

theorem bt4Run_seek_bound (es : List LoopEvent) : ∀ d : CustomData,
    seekCount (bt4Run d es).2 +
      (if (bt4Run d es).1.seek_done = true then 0 else 1) ≤
      (if d.seek_done = true then 0 else 1) := by
  induction es with
  | nil => intro d; simp [bt4Run, seekCount]
  | cons e es ih =>
      intro d
      have h1 := bt4Step_seek_bound d e
      have h2 := ih (bt4Step d e).1
      simp only [bt4Run]
      split
      · exact h1
      · simp only [seekCount_append]
        omega

/-- Claim C1: across any execution of the bt4 event loop started from the
initial session state, gst_element_seek_simple is invoked at most once: once
the first seek sets seek_done, no later polling tick issues another seek,
however many ticks observe a position past the threshold. -/
theorem C1_at_most_one_seek (es : List LoopEvent) :
    seekCount (bt4Run bt4Init es).2 ≤ 1 := by
  have h := bt4Run_seek_bound es bt4Init
  have hsd : bt4Init.seek_done = false := rfl
  rw [hsd] at h
  by_cases hf : (bt4Run bt4Init es).1.seek_done = true <;>
    simp [hf] at h <;> omega

theorem tick_seek_mem (env : TickEnv) (d : CustomData) (hp : d.playing = true) :
    theSeek ∈ (tick env d).2 ↔
      (d.seek_enabled = true ∧ d.seek_done = false ∧
        10 * GST_SECOND < env.posResult.getD (-1)) := by
  rcases env with ⟨_ | pv, _ | dv⟩ <;>
    by_cases hv : GST_CLOCK_TIME_IS_VALID d.duration = true <;>
      simp [tick, hp, hv, theSeek] <;>
        split <;> rename_i hc <;>
          simp_all [GST_SECOND]

theorem tick_seek_only (env : TickEnv) (d : CustomData) :
    ∀ a ∈ (tick env d).2, isSeek a = true → a = theSeek := by
  by_cases hp : d.playing = true
  · rcases env with ⟨_ | pv, _ | dv⟩ <;>
      by_cases hv : GST_CLOCK_TIME_IS_VALID d.duration = true <;>
        simp [tick, hp, hv, theSeek] <;>
          split <;> simp [isSeek]
  · simp [tick, hp]

theorem tick_seek_done_iff (env : TickEnv) (d : CustomData) (hp : d.playing = true) :
    (tick env d).1.seek_done = true ↔
      (d.seek_done = true ∨ theSeek ∈ (tick env d).2) := by
  rcases env with ⟨_ | pv, _ | dv⟩ <;>
    by_cases hv : GST_CLOCK_TIME_IS_VALID d.duration = true <;>
      simp [tick, hp, hv, theSeek] <;>
        split <;> rename_i hc <;> simp_all

theorem tick_disabled (env : TickEnv) (d : CustomData)
    (hd : d.seek_enabled = false) :
    (tick env d).1.seek_enabled = false ∧ seekCount (tick env d).2 = 0 := by
  by_cases hp : d.playing = true
  · rcases env with ⟨_ | pv, _ | dv⟩ <;>
      by_cases hv : GST_CLOCK_TIME_IS_VALID d.duration = true <;>
        simp [tick, hp, hv, hd, seekCount, isSeek]
  · simp [tick, hp, hd, seekCount]

theorem hm_disabled (sq : Option (Bool × Int × Int)) (d : CustomData)
    (m : GstMessage) (hd : d.seek_enabled = false)
    (hsq : ∀ st ed, sq ≠ some (true, st, ed)) :
    (handle_message sq d m).1.seek_enabled = false := by
  have h : (handle_message sq d m).1 = (handle_message_core sq d m).1 := rfl
  rw [h]
  rcases m with ⟨sN, eM, dI⟩ | _ | ⟨top, o, n, p⟩ | _ | _ <;>
    simp [handle_message_core, hd]
  cases top <;> by_cases hn : n = GstState.PLAYING <;>
    rcases sq with _ | ⟨en, st, ed⟩ <;> simp [hn, hd]
  cases en
  · rfl
  · exact absurd rfl (hsq st ed)

theorem bt4Step_disabled (d : CustomData) (e : LoopEvent)
    (hd : d.seek_enabled = false) (he : eventReportsEnabled e = false) :
    (bt4Step d e).1.seek_enabled = false ∧ seekCount (bt4Step d e).2 = 0 := by
  cases e with
  | message msg sq =>
      refine ⟨hm_disabled sq d msg hd ?_, hm_no_seek sq d msg⟩
      intro st ed hsq
      subst hsq
      simp [eventReportsEnabled] at he
  | timeout env => exact tick_disabled env d hd

theorem bt4Run_disabled (es : List LoopEvent) : ∀ d : CustomData,
    d.seek_enabled = false → (∀ e ∈ es, eventReportsEnabled e = false) →
    (bt4Run d es).1.seek_enabled = false ∧ seekCount (bt4Run d es).2 = 0 := by
  induction es with
  | nil => intro d hd _; simpa [bt4Run, seekCount] using hd
  | cons e es ih =>
      intro d hd he
      have h1 := bt4Step_disabled d e hd (he e (List.mem_cons_self e es))
      have h2 := ih (bt4Step d e).1 h1.1 (fun x hx => he x (List.mem_cons_of_mem e hx))
      simp only [bt4Run]
      split
      · exact h1
      · simp only [seekCount_append]
        exact ⟨h2.1, by omega⟩

/-- Claim C2: on a polling tick with playing set, bt4 issues a seek exactly
when seek_enabled is true, seek_done is false and the queried position
strictly exceeds 10 seconds (a failed query leaves the local position at -1,
which never passes the threshold); any seek issued is exactly the
FLUSH/KEY_UNIT seek to 30 seconds, and seek_done becomes true precisely when
it was already true or the seek fired.  Moreover, in a whole event-loop run
in which no capability query ever reports seeking enabled, no seek is ever
issued on any tick. -/
theorem C2_seek_condition :
    (∀ (env : TickEnv) (d : CustomData), d.playing = true →
      (theSeek ∈ (tick env d).2 ↔
        (d.seek_enabled = true ∧ d.seek_done = false ∧
          10 * GST_SECOND < env.posResult.getD (-1))) ∧
      (∀ a ∈ (tick env d).2, isSeek a = true → a = theSeek) ∧
      ((tick env d).1.seek_done = true ↔
        (d.seek_done = true ∨ theSeek ∈ (tick env d).2))) ∧
    (∀ es : List LoopEvent, (∀ e ∈ es, eventReportsEnabled e = false) →
      seekCount (bt4Run bt4Init es).2 = 0) :=
  ⟨fun env d hp =>
    ⟨tick_seek_mem env d hp, tick_seek_only env d, tick_seek_done_iff env d hp⟩,
   fun es he => (bt4Run_disabled es bt4Init rfl he).2⟩

/-- Claim C3 counterexample: in bt2 with the source creation failing while
the sink and the pipeline are created successfully, the program aborts with
exit code -1 having released nothing: the sink and pipeline handles are
leaked, so construction does not roll back fully. -/
theorem C3_counterexample :
    (bt2_construct false true true true true).outcome = some (-1) ∧
    (bt2_construct false true true true true).released = [] ∧
    leaked (bt2_construct false true true true true) = ["sink", "test-pipeline"] := by
  decide

/-- Claim C3 as amended: a static-link failure or a failed transition to
PLAYING aborts with -1 after unreffing the pipeline, which at that point owns
every created element, so nothing is leaked; but an element-instantiation
failure aborts with -1 releasing nothing at all, leaking whatever handles
were already created (in bt4 only one handle exists, so its
instantiation-failure path happens to leak nothing); on full success the
construction phase requests the PLAYING transition and hands over to the
event loop. -/
theorem C3_amended :
    (∀ so si po lo st : Bool,
      ((bt2_construct so si po lo st).outcome =
        if so && si && po && lo && st then none else some (-1)) ∧
      ((so && si && po) = true → (lo && st) = false →
        leaked (bt2_construct so si po lo st) = []) ∧
      ((so && si && po) = false →
        (bt2_construct so si po lo st).released = [] ∧
        leaked (bt2_construct so si po lo st) =
          (bt2_construct so si po lo st).created) ∧
      ((so && si && po && lo && st) = true →
        GstAction.setState GstState.PLAYING ∈
          (bt2_construct so si po lo st).actions)) ∧
    (∀ so co re si po lo st : Bool,
      ((bt3_construct so co re si po lo st).outcome =
        if so && co && re && si && po && lo && st then none else some (-1)) ∧
      ((so && co && re && si && po) = true → (lo && st) = false →
        leaked (bt3_construct so co re si po lo st) = []) ∧
      ((so && co && re && si && po) = false →
        (bt3_construct so co re si po lo st).released = [] ∧
        leaked (bt3_construct so co re si po lo st) =
          (bt3_construct so co re si po lo st).created) ∧
      ((so && co && re && si && po && lo && st) = true →
        GstAction.setState GstState.PLAYING ∈
          (bt3_construct so co re si po lo st).actions)) ∧
    (∀ po st : Bool,
      ((bt4_construct po st).outcome =
        if po && st then none else some (-1)) ∧
      ((bt4_construct po st).outcome = some (-1) →
        leaked (bt4_construct po st) = []) ∧
      ((po && st) = true →
        GstAction.setState GstState.PLAYING ∈ (bt4_construct po st).actions)) := by
  refine ⟨?_, ?_, ?_⟩ <;> decide

/-- A concrete pad-added delivery whose pad has no current capabilities
(gst_pad_get_current_caps returns NULL). -/
def padEnvNoCaps : PadEnv :=
  { padName := "src_0", srcName := "source", newPadCaps := none, linkOk := true }

/-- Claim C4 counterexample: on a pad whose capabilities descriptor is
absent, pad_added_handler does access the absent descriptor — it still calls
gst_caps_get_structure and gst_structure_get_name with the NULL caps (the
trace records both calls with an absent argument), contrary to the claim that
the handler completes with no access to the absent descriptor.  (No link is
performed, but only because the defensive NULL propagation of those calls
makes the prefix test fail.) -/
theorem C4_counterexample :
    GstAction.capsGetStructure false ∈
      (pad_added_handler ⟨false⟩ padEnvNoCaps).2 ∧
    GstAction.structureGetName false ∈
      (pad_added_handler ⟨false⟩ padEnvNoCaps).2 := by
  decide

/-- Claim C4 as amended: on a pad with an absent capabilities descriptor the
handler performs no link, changes no link state, skips the caps unref and
still releases the sink pad — it treats the pad as non-matching — but it does
pass the absent descriptor to the structure and name accessors, relying on
their defensive NULL handling rather than avoiding the access; and it never
links a pad whose type name lacks the audio/x-raw prefix. -/
theorem C4_amended (w : PadWorld) (env : PadEnv) :
    (env.newPadCaps = none →
      (pad_added_handler w env).1 = w ∧
      (∀ b, GstAction.padLink b ∉ (pad_added_handler w env).2) ∧
      GstAction.sinkPadUnref ∈ (pad_added_handler w env).2 ∧
      GstAction.capsUnref ∉ (pad_added_handler w env).2) ∧
    (∀ t, env.newPadCaps = some t →
      (String.isPrefixOf ("audio/x-raw") t) = false →
      (pad_added_handler w env).1 = w ∧
      (∀ b, GstAction.padLink b ∉ (pad_added_handler w env).2)) := by
  constructor
  · intro hc
    rcases w with ⟨_ | _⟩ <;>
      simp [pad_added_handler, exitActs, hc, audioRawMatch]
  · intro t hc hpre
    rcases w with ⟨_ | _⟩ <;>
      simp [pad_added_handler, exitActs, hc, audioRawMatch, hpre]

/-- The trace one pad_added_handler invocation leaves when the converter sink
pad is already linked: get the sink pad, print the received-pad line, print
the already-linked notice, release the sink pad — and nothing else. -/
def alreadyLinkedTrace (e : PadEnv) : List GstAction :=
  [GstAction.getStaticSinkPad,
   GstAction.printPadReceived e.padName e.srcName,
   GstAction.printOut ("We are already linked. Ignoring.\n"),
   GstAction.sinkPadUnref]

/-- Claim C5: pad_added_handler is idempotent once the converter sink pad is
linked: invoking it any number of times from the linked state performs no
gst_pad_link call at all, leaves the link state unchanged, and each
invocation contributes exactly the log-and-return trace. -/
theorem C5_idempotent_when_linked (envs : List PadEnv) :
    runHandlers ⟨true⟩ envs = (⟨true⟩, envs.flatMap alreadyLinkedTrace) ∧
    (∀ b, GstAction.padLink b ∉ (runHandlers ⟨true⟩ envs).2) := by
  have key : runHandlers ⟨true⟩ envs = (⟨true⟩, envs.flatMap alreadyLinkedTrace) := by
    induction envs with
    | nil => simp [runHandlers]
    | cons e es ih =>
        simp [runHandlers, pad_added_handler, exitActs, ih, alreadyLinkedTrace]
  refine ⟨key, ?_⟩
  rw [key]
  intro b hb
  simp [alreadyLinkedTrace, List.mem_flatMap] at hb

theorem bt2Parse_no_unref (m : GstMessage) :
    unrefCount (bt2ParseMsg m) = 0 := by
  cases m <;> simp [bt2ParseMsg, unrefCount, isMessageUnref]

theorem bt3Parse_no_unref (t : Bool) (m : GstMessage) :
    unrefCount (bt3ParseMsg t m).2 = 0 := by
  cases m <;> simp [bt3ParseMsg, unrefCount, isMessageUnref]

theorem hmCore_no_unref (sq : Option (Bool × Int × Int)) (d : CustomData)
    (m : GstMessage) :
    unrefCount (handle_message_core sq d m).2 = 0 := by
  rcases m with ⟨sN, eM, dI⟩ | _ | ⟨top, o, n, p⟩ | _ | _ <;>
    simp [handle_message_core, unrefCount, isMessageUnref]
  cases top <;> by_cases hn : n = GstState.PLAYING <;>
    rcases sq with _ | ⟨en, st, ed⟩ <;>
      simp [hn, unrefCount, isMessageUnref] <;>
        cases en <;> simp [unrefCount, isMessageUnref]

/-- Claim C6: in all three tutorials, every message popped from the bus is
released by exactly one gst_message_unref after handling, whatever dispatch
branch is taken (error, end-of-stream, state-changed, duration-changed or the
unexpected default). -/
theorem C6_message_released_once :
    (∀ m : GstMessage, unrefCount (bt2HandleMsg m) = 1) ∧
    (∀ (t : Bool) (m : GstMessage), unrefCount (bt3HandleMsg t m).2 = 1) ∧
    (∀ (sq : Option (Bool × Int × Int)) (d : CustomData) (m : GstMessage),
      unrefCount (handle_message sq d m).2 = 1) := by
  refine ⟨fun m => ?_, fun t m => ?_, fun sq d m => ?_⟩
  · rw [bt2HandleMsg, unrefCount_append, bt2Parse_no_unref]
    rfl
  · have h : (bt3HandleMsg t m).2 =
        (bt3ParseMsg t m).2 ++ [GstAction.messageUnref] := rfl
    rw [h, unrefCount_append, bt3Parse_no_unref]
    rfl
  · have h : (handle_message sq d m).2 =
        (handle_message_core sq d m).2 ++ [GstAction.messageUnref] := rfl
    rw [h, unrefCount_append, hmCore_no_unref]
    rfl

/-- A bt4 session state in the PLAYING state with a known duration and no
seek pending or performed; the argument is the cached duration. -/
def bt4PlayingAt (dur : Int) : CustomData :=
  { playing := true, terminate := false, seek_enabled := false,
    seek_done := false, duration := dur }

/-- Claim C7 counterexample: the tick after a successful position query at 5s
reports 5s, but the next tick, whose position query fails, reports the
invalid sentinel -1 — not the previously known 5s.  bt4 holds no cached
position across ticks: `current` is a local re-initialised to -1 on every
tick, so the claim that a failed query leaves the previously known position
in place is false. -/
theorem C7_counterexample :
    (bt4Run (bt4PlayingAt (100 * GST_SECOND))
        [LoopEvent.timeout ⟨some (5 * GST_SECOND), none⟩,
         LoopEvent.timeout ⟨none, none⟩]).2 =
      [GstAction.printPosition (5 * GST_SECOND) (100 * GST_SECOND),
       GstAction.printErr ("Could not query current position.\n"),
       GstAction.printPosition (-1) (100 * GST_SECOND)] ∧
    GST_CLOCK_TIME_IS_VALID (-1) = false ∧
    (-1 : Int) ≠ 5 * GST_SECOND := by
  decide

/-- Claim C7 as amended: when the position query fails on a playing tick, the
failure is logged and non-fatal — the terminate, playing and seek_done fields
are untouched, no seek fires — but the position printed for that tick is the
invalid sentinel -1 from the freshly re-initialised local, not a previously
known position (bt4 caches no position across ticks; only the duration cache
persists). -/
theorem C7_amended (env : TickEnv) (d : CustomData)
    (hp : d.playing = true) (hq : env.posResult = none) :
    GstAction.printErr ("Could not query current position.\n") ∈ (tick env d).2 ∧
    (tick env d).1.terminate = d.terminate ∧
    (tick env d).1.playing = d.playing ∧
    (tick env d).1.seek_done = d.seek_done ∧
    (∀ a ∈ (tick env d).2, isSeek a = false) ∧
    GstAction.printPosition (-1) (tick env d).1.duration ∈ (tick env d).2 := by
  rcases env with ⟨pos, dur⟩
  cases hq
  rcases dur with _ | dv <;>
    by_cases hv : GST_CLOCK_TIME_IS_VALID d.duration = true <;>
      simp [tick, hp, hv, GST_SECOND, isSeek]

/-- Witness for the amended claim C7 at a concrete playing state and failed
query. -/
theorem C7_amended_witness :
    GstAction.printErr ("Could not query current position.\n") ∈
      (tick ⟨none, none⟩ (bt4PlayingAt (100 * GST_SECOND))).2 ∧
    (tick ⟨none, none⟩ (bt4PlayingAt (100 * GST_SECOND))).1.terminate =
      (bt4PlayingAt (100 * GST_SECOND)).terminate ∧
    (tick ⟨none, none⟩ (bt4PlayingAt (100 * GST_SECOND))).1.playing =
      (bt4PlayingAt (100 * GST_SECOND)).playing ∧
    (tick ⟨none, none⟩ (bt4PlayingAt (100 * GST_SECOND))).1.seek_done =
      (bt4PlayingAt (100 * GST_SECOND)).seek_done ∧
    (∀ a ∈ (tick ⟨none, none⟩ (bt4PlayingAt (100 * GST_SECOND))).2,
      isSeek a = false) ∧
    GstAction.printPosition (-1)
        (tick ⟨none, none⟩ (bt4PlayingAt (100 * GST_SECOND))).1.duration ∈
      (tick ⟨none, none⟩ (bt4PlayingAt (100 * GST_SECOND))).2 :=
  C7_amended ⟨none, none⟩ (bt4PlayingAt (100 * GST_SECOND)) rfl rfl

/-- Claim C8: each tutorial returns 0 exactly when construction fully
succeeded and the event loop terminated normally, and returns -1 exactly when
a construction or setup step before the event loop failed (null element
handle, failed static link, or failed transition to PLAYING). -/
theorem C8_exit_codes :
    (∀ (so si po lo st : Bool) (msg : Option GstMessage),
      bt2_main so si po lo st msg =
        some (if so && si && po && lo && st then 0 else -1)) ∧
    (∀ (so co re si po lo st : Bool) (msgs : List (Option GstMessage)),
      bt3_main so co re si po lo st msgs =
        if so && co && re && si && po && lo && st then
          (if (bt3Run false msgs).1 then some 0 else none)
        else some (-1)) ∧
    (∀ (po st : Bool) (es : List LoopEvent),
      bt4_main po st es =
        if po && st then
          (if (bt4Run bt4Init es).1.terminate then some 0 else none)
        else some (-1)) := by
  have h2 : ∀ so si po lo st : Bool,
      (bt2_construct so si po lo st).outcome =
        if so && si && po && lo && st then none else some (-1) := by decide
  have h3 : ∀ so co re si po lo st : Bool,
      (bt3_construct so co re si po lo st).outcome =
        if so && co && re && si && po && lo && st then none else some (-1) := by
    decide
  have h4 : ∀ po st : Bool,
      (bt4_construct po st).outcome =
        if po && st then none else some (-1) := by decide
  refine ⟨fun so si po lo st msg => ?_, fun so co re si po lo st msgs => ?_,
    fun po st es => ?_⟩
  · by_cases hall : (so && si && po && lo && st) = true <;>
      simp [bt2_main, h2, hall]
  · by_cases hall : (so && co && re && si && po && lo && st) = true <;>
      simp [bt3_main, h3, hall]
  · by_cases hall : (po && st) = true <;>
      simp [bt4_main, h4, hall]

/-- Claim C9: in bt4, a state-changed message whose source is not the playbin
leaves every field of the shared session state unchanged, and its handling
consists of nothing but the message release. -/
theorem C9_non_toplevel_state_changed (sq : Option (Bool × Int × Int))
    (d : CustomData) (o n p : GstState) :
    handle_message sq d (GstMessage.stateChanged false o n p) =
      (d, [GstAction.messageUnref]) := rfl

/-- Claim C10: after a playbin-originated state-changed message, the playing
flag is set exactly when the new state is PLAYING; leaving PLAYING clears it
and touches neither seek_enabled nor the capability query, while every entry
into PLAYING issues the seeking capability query anew (and releases the query
object), refreshing seek_enabled from the parsed result whenever the query
succeeds and leaving it unchanged when the query fails. -/
theorem C10_playing_tracks_state (sq : Option (Bool × Int × Int))
    (d : CustomData) (o n p : GstState) :
    ((handle_message sq d (GstMessage.stateChanged true o n p)).1.playing = true ↔
      n = GstState.PLAYING) ∧
    (n ≠ GstState.PLAYING →
      (handle_message sq d (GstMessage.stateChanged true o n p)).1 =
        { d with playing := false } ∧
      GstAction.querySeekingNew ∉
        (handle_message sq d (GstMessage.stateChanged true o n p)).2) ∧
    (n = GstState.PLAYING →
      GstAction.querySeekingNew ∈
        (handle_message sq d (GstMessage.stateChanged true o n p)).2 ∧
      GstAction.queryUnref ∈
        (handle_message sq d (GstMessage.stateChanged true o n p)).2 ∧
      (∀ en startR endR, sq = some (en, startR, endR) →
        (handle_message sq d
            (GstMessage.stateChanged true o n p)).1.seek_enabled = en) ∧
      (sq = none →
        (handle_message sq d
            (GstMessage.stateChanged true o n p)).1.seek_enabled =
          d.seek_enabled)) := by
  by_cases hn : n = GstState.PLAYING <;>
    rcases sq with _ | ⟨en, st, ed⟩ <;>
      simp [handle_message, handle_message_core, hn]

end GstSoltrek
